import Mathlib

/-!
# Azure App Service tables: retrieval functions

A shallow embedding of the two table files of the plugin,
`azure/table_azure_app_service_function_app.go` and
`azure/table_azure_app_service_plan.go`.

* Go pointers (`*string`) are `Option`; dereferencing `none` is a run-time
  panic, recorded as `Completion.panicked`.
* A hydrate function is a state-passing function over a provider world `W`
  (everything the cloud provider and the session manager do is a field of
  `Provider`); it yields the ordered log of its effects and how it completed.
* The `for pagesLeft` loops are not known to terminate, so they carry an
  iteration budget; `Completion.unfinished` means the budget ran out with the
  loop still running.
-/

namespace Azure

/-! ## Data model -/

/-- A provider or session error: what a Go `error` value carries here. -/
structure Err where
  code : String
  message : String
deriving DecidableEq, Repr

/-- The record type `web.Site` (fields the retrieval code and the key columns read). -/
structure Site where
  ID : Option String
  Name : Option String
  Kind : Option String
deriving DecidableEq, Repr

/-- The record type `web.AppServicePlan`. -/
structure AppServicePlan where
  ID : Option String
  Name : Option String
  Kind : Option String
deriving DecidableEq, Repr

/-- The value type `proto.QualValue` of a key-column qualifier. -/
inductive QualValue where
  | StringValue (s : String)
  | Int64Value (i : Int)
  | BoolValue (b : Bool)
deriving DecidableEq, Repr

/-- The getter `(*proto.QualValue).GetStringValue`: nil-safe, `""` unless the value is a string. -/
def GetStringValue : Option QualValue → String
  | some (QualValue.StringValue s) => s
  | _ => ""

/-- The part of `plugin.QueryData` the hydrate functions read: the map `KeyColumnQuals`. -/
structure QueryData where
  KeyColumnQuals : List (String × QualValue)
deriving DecidableEq, Repr

/-- The map index expression `d.KeyColumnQuals[key]` (nil when the key is absent). -/
def QueryData.qual (d : QueryData) (key : String) : Option QualValue :=
  d.KeyColumnQuals.lookup key

/-- The session returned by `GetNewSession`. -/
structure Session where
  SubscriptionID : String
  Authorizer : String
deriving DecidableEq, Repr

/-- The client `web.AppsClient`. -/
structure AppsClient where
  SubscriptionID : String
  Authorizer : Option String
deriving DecidableEq, Repr

/-- The client `web.AppServicePlansClient`. -/
structure AppServicePlansClient where
  SubscriptionID : String
  Authorizer : Option String
deriving DecidableEq, Repr

/-- The constructor `web.NewAppsClient`. -/
def NewAppsClient (subscriptionID : String) : AppsClient :=
  { SubscriptionID := subscriptionID, Authorizer := none }

/-- The constructor `web.NewAppServicePlansClient`. -/
def NewAppServicePlansClient (subscriptionID : String) : AppServicePlansClient :=
  { SubscriptionID := subscriptionID, Authorizer := none }

/-- The methods of a collection page (`web.AppCollectionPage`,
`web.AppServicePlanCollectionPage`) over a cursor type `σ`. `NextWithContext`
mutates the page in Go: here it returns the page afterwards, with its error. -/
structure CollectionPage (W σ ρ : Type) where
  Values : σ → List ρ
  NextWithContext : σ → W → (σ × Option Err) × W
  NotDone : σ → Bool

/-- Everything outside the two files that the hydrate functions call: the
session manager and the calls of the two web clients, each a step on the
provider world `W`. -/
structure Provider (W σA σP : Type) where
  GetNewSession : W → Except Err Session × W
  AppsList : AppsClient → W → Except Err σA × W
  AppsGet : AppsClient → String → String → W → Except Err Site × W
  AppCollectionPage : CollectionPage W σA Site
  PlansList : AppServicePlansClient → Option Bool → W → Except Err σP × W
  PlansGet : AppServicePlansClient → String → String → W → Except Err AppServicePlan × W
  AppServicePlanCollectionPage : CollectionPage W σP AppServicePlan

/-- One observable effect of a hydrate function: the trace line, a call of
`GetNewSession`, of `webClient.List`, of `result.NextWithContext` or of
`webClient.Get`, and an item handed to `d.StreamListItem`. -/
inductive Event (ρ : Type) where
  | logTrace (msg : String)
  | getNewSession
  | listCall
  | nextCall
  | getCall (resourceGroup name : String)
  | stream (item : ρ)
deriving DecidableEq, Repr

/-- How a hydrate function ended: it returned `(value, err)`, it panicked, or
the iteration budget ran out while its loop was still running. -/
inductive Completion (ρ : Type) where
  | returned (value : Option ρ) (err : Option Err)
  | panicked
  | unfinished
deriving DecidableEq, Repr

/-- The effects of one call, in order, and how the call ended. -/
structure Run (ρ : Type) where
  events : List (Event ρ)
  completion : Completion ρ
deriving DecidableEq, Repr

/-- The run `r` after the effects `evs`. -/
def Run.after {ρ : Type} (evs : List (Event ρ)) (r : Run ρ) : Run ρ :=
  { events := evs ++ r.events, completion := r.completion }

/-- The items handed to `d.StreamListItem`, in order. -/
def streamed {ρ : Type} : List (Event ρ) → List ρ
  | [] => []
  | Event.stream item :: evs => item :: streamed evs
  | _ :: evs => streamed evs

/-- The number of `webClient.List` calls in a log. -/
def listCalls {ρ : Type} : List (Event ρ) → Nat
  | [] => 0
  | Event.listCall :: evs => listCalls evs + 1
  | _ :: evs => listCalls evs

/-- True for the effects that reach the session manager or the provider. -/
def Event.isRemote {ρ : Type} : Event ρ → Bool
  | Event.getNewSession => true
  | Event.listCall => true
  | Event.nextCall => true
  | Event.getCall _ _ => true
  | _ => false

/-! ## Go built-ins used by the code -/

/-- Go's `len` on a string: its length in bytes. -/
def len (s : String) : Nat := s.utf8ByteSize

/-- Whether `sub` starts the character sequence `s`. -/
def startsWith : List Char → List Char → Bool
  | _, [] => true
  | [], _ :: _ => false
  | c :: s, c1 :: sub => c == c1 && startsWith s sub

/-- Whether `sub` occurs in `s` at some position. -/
def containsChars : List Char → List Char → Bool
  | [], sub => startsWith [] sub
  | c :: s, sub => startsWith (c :: s) sub || containsChars s sub

/-- Go's `strings.Contains(s, substr)`. Go compares bytes; on valid UTF-8
text that is the same as comparing characters. -/
def stringsContains (s substr : String) : Bool :=
  containsChars s.data substr.data

/-! ## `table_azure_app_service_function_app.go` -/

/-- The body of `for _, functionApp := range result.Values()`: the stream
effects, and `false` when `*functionApp.Kind` dereferenced a nil pointer
(the range is abandoned there). -/
def streamFunctionApps : List Site → List (Event Site) × Bool
  | [] => ([], true)
  | functionApp :: rest =>
    match functionApp.Kind with
    | none => ([], false)
    | some kind =>
      if stringsContains kind "functionapp" then
        (Event.stream functionApp :: (streamFunctionApps rest).1, (streamFunctionApps rest).2)
      else
        streamFunctionApps rest

/-- The loop `for pagesLeft { ... }` of `listAppServiceFunctionApps`, entered
with `pagesLeft = true`; `err` is the variable of the enclosing scope, which
the final `return nil, err` reads (the loop declares its own). -/
def listAppServiceFunctionAppsLoop {W σA σP : Type} (az : Provider W σA σP)
    (webClient : AppsClient) (err : Option Err) : Nat → W → Run Site
  | 0, _ => { events := [], completion := Completion.unfinished }
  | fuel + 1, w =>
    match az.AppsList webClient w with
    | (Except.error err1, _) =>
      { events := [Event.listCall], completion := Completion.returned none (some err1) }
    | (Except.ok result, w1) =>
      match streamFunctionApps (az.AppCollectionPage.Values result) with
      | (evs, false) =>
        { events := Event.listCall :: evs, completion := Completion.panicked }
      | (evs, true) =>
        match az.AppCollectionPage.NextWithContext result w1 with
        | ((result1, _), w2) =>
          let pagesLeft := az.AppCollectionPage.NotDone result1
          if pagesLeft then
            Run.after (Event.listCall :: evs ++ [Event.nextCall])
              (listAppServiceFunctionAppsLoop az webClient err fuel w2)
          else
            { events := Event.listCall :: evs ++ [Event.nextCall],
              completion := Completion.returned none err }

/-- The hydrate function `listAppServiceFunctionApps`; `fuel` bounds the
iterations of its loop. -/
def listAppServiceFunctionApps {W σA σP : Type} (az : Provider W σA σP)
    (fuel : Nat) (_d : QueryData) (w : W) : Run Site :=
  match az.GetNewSession w with
  | (Except.error err, _) =>
    { events := [Event.getNewSession], completion := Completion.returned none (some err) }
  | (Except.ok session, w1) =>
    let err : Option Err := none
    let subscriptionID := session.SubscriptionID
    let webClient : AppsClient :=
      { NewAppsClient subscriptionID with Authorizer := some session.Authorizer }
    Run.after [Event.getNewSession] (listAppServiceFunctionAppsLoop az webClient err fuel w1)

/-- The hydrate function `getAppServiceFunctionApp`. -/
def getAppServiceFunctionApp {W σA σP : Type} (az : Provider W σA σP)
    (d : QueryData) (w : W) : Run Site :=
  let name := GetStringValue (d.qual "name")
  let resourceGroup := GetStringValue (d.qual "resource_group")
  if len resourceGroup < 1 then
    { events := [Event.logTrace "getAppServiceFunctionApp"],
      completion := Completion.returned none none }
  else
    match az.GetNewSession w with
    | (Except.error err, _) =>
      { events := [Event.logTrace "getAppServiceFunctionApp", Event.getNewSession],
        completion := Completion.returned none (some err) }
    | (Except.ok session, w1) =>
      let subscriptionID := session.SubscriptionID
      let webClient : AppsClient :=
        { NewAppsClient subscriptionID with Authorizer := some session.Authorizer }
      match az.AppsGet webClient resourceGroup name w1 with
      | (Except.error err, _) =>
        { events := [Event.logTrace "getAppServiceFunctionApp", Event.getNewSession,
                     Event.getCall resourceGroup name],
          completion := Completion.returned none (some err) }
      | (Except.ok op, _) =>
        if op.ID ≠ none then
          { events := [Event.logTrace "getAppServiceFunctionApp", Event.getNewSession,
                       Event.getCall resourceGroup name],
            completion := Completion.returned (some op) none }
        else
          { events := [Event.logTrace "getAppServiceFunctionApp", Event.getNewSession,
                       Event.getCall resourceGroup name],
            completion := Completion.returned none none }

/-! ## `table_azure_app_service_plan.go` -/

/-- The body of `for _, servicePlan := range result.Values()`: every record is streamed. -/
def streamServicePlans : List AppServicePlan → List (Event AppServicePlan)
  | [] => []
  | servicePlan :: rest => Event.stream servicePlan :: streamServicePlans rest

/-- The loop `for pagesLeft { ... }` of `listAppServicePlans`; `err` is the
variable of the enclosing scope, read by the final `return nil, err`. -/
def listAppServicePlansLoop {W σA σP : Type} (az : Provider W σA σP)
    (webClient : AppServicePlansClient) (err : Option Err) : Nat → W → Run AppServicePlan
  | 0, _ => { events := [], completion := Completion.unfinished }
  | fuel + 1, w =>
    let param := true
    match az.PlansList webClient (some param) w with
    | (Except.error err1, _) =>
      { events := [Event.listCall], completion := Completion.returned none (some err1) }
    | (Except.ok result, w1) =>
      let evs := streamServicePlans (az.AppServicePlanCollectionPage.Values result)
      match az.AppServicePlanCollectionPage.NextWithContext result w1 with
      | ((result1, _), w2) =>
        let pagesLeft := az.AppServicePlanCollectionPage.NotDone result1
        if pagesLeft then
          Run.after (Event.listCall :: evs ++ [Event.nextCall])
            (listAppServicePlansLoop az webClient err fuel w2)
        else
          { events := Event.listCall :: evs ++ [Event.nextCall],
            completion := Completion.returned none err }

/-- The hydrate function `listAppServicePlans`; `fuel` bounds the iterations of its loop. -/
def listAppServicePlans {W σA σP : Type} (az : Provider W σA σP)
    (fuel : Nat) (_d : QueryData) (w : W) : Run AppServicePlan :=
  match az.GetNewSession w with
  | (Except.error err, _) =>
    { events := [Event.getNewSession], completion := Completion.returned none (some err) }
  | (Except.ok session, w1) =>
    let err : Option Err := none
    let subscriptionID := session.SubscriptionID
    let webClient : AppServicePlansClient :=
      { NewAppServicePlansClient subscriptionID with Authorizer := some session.Authorizer }
    Run.after [Event.getNewSession] (listAppServicePlansLoop az webClient err fuel w1)

/-- The hydrate function `getAppServicePlan`. -/
def getAppServicePlan {W σA σP : Type} (az : Provider W σA σP)
    (d : QueryData) (w : W) : Run AppServicePlan :=
  let name := GetStringValue (d.qual "name")
  let resourceGroup := GetStringValue (d.qual "resource_group")
  if len resourceGroup < 1 then
    { events := [Event.logTrace "getAppServicePlan"],
      completion := Completion.returned none none }
  else
    match az.GetNewSession w with
    | (Except.error err, _) =>
      { events := [Event.logTrace "getAppServicePlan", Event.getNewSession],
        completion := Completion.returned none (some err) }
    | (Except.ok session, w1) =>
      let subscriptionID := session.SubscriptionID
      let webClient : AppServicePlansClient :=
        { NewAppServicePlansClient subscriptionID with Authorizer := some session.Authorizer }
      match az.PlansGet webClient resourceGroup name w1 with
      | (Except.error err, _) =>
        { events := [Event.logTrace "getAppServicePlan", Event.getNewSession,
                     Event.getCall resourceGroup name],
          completion := Completion.returned none (some err) }
      | (Except.ok op, _) =>
        { events := [Event.logTrace "getAppServicePlan", Event.getNewSession,
                     Event.getCall resourceGroup name],
          completion := Completion.returned (some op) none }

/-! ## Table definitions -/

/-- The type `plugin.ErrorPredicate`. -/
abbrev ErrorPredicate := Err → Bool

/-- Modelled from the spec: `isNotFoundError`, a helper of the `azure` package
that is not part of the two table files. The ignorable codes are a list
checked against the code of the provider error. -/
def isNotFoundError (notFoundErrors : List String) : ErrorPredicate :=
  fun err => notFoundErrors.contains err.code

/-- The configuration `plugin.GetConfig`. -/
structure GetConfig (W ρ : Type) where
  KeyColumns : List String
  Hydrate : QueryData → W → Run ρ
  ShouldIgnoreError : Option ErrorPredicate

/-- The configuration `plugin.ListConfig`; a field the table literal does not
set holds Go's zero value (`none`). -/
structure ListConfig (W ρ : Type) where
  Hydrate : Nat → QueryData → W → Run ρ
  ShouldIgnoreError : Option ErrorPredicate

/-- The retrieval part of `plugin.Table` (the column list is not modelled). -/
structure Table (W ρ : Type) where
  Name : String
  Description : String
  Get : GetConfig W ρ
  List : ListConfig W ρ

/-- The table `tableAzureAppServiceFunctionApp`. -/
def tableAzureAppServiceFunctionApp {W σA σP : Type} (az : Provider W σA σP) : Table W Site :=
  { Name := "azure_app_service_function_app",
    Description := "Azure App Service Function App",
    Get :=
      { KeyColumns := ["name", "resource_group"],
        Hydrate := getAppServiceFunctionApp az,
        ShouldIgnoreError := some (isNotFoundError ["ResourceNotFound", "ResourceGroupNotFound"]) },
    List :=
      { Hydrate := listAppServiceFunctionApps az,
        ShouldIgnoreError := none } }

/-- The table `tableAzureAppServicePlan`. -/
def tableAzureAppServicePlan {W σA σP : Type} (az : Provider W σA σP) :
    Table W AppServicePlan :=
  { Name := "azure_app_service_plan",
    Description := "Azure App Service Plan",
    Get :=
      { KeyColumns := ["name", "resource_group"],
        Hydrate := getAppServicePlan az,
        ShouldIgnoreError := some (isNotFoundError ["ResourceNotFound", "ResourceGroupNotFound"]) },
    List :=
      { Hydrate := listAppServicePlans az,
        ShouldIgnoreError := none } }

/-- What the plugin host makes of a hydrate call under a retrieval
configuration: an error that the configured `ShouldIgnoreError` accepts becomes
"no result, no error"; without a predicate every error stands. -/
def ignoreError {ρ : Type} (shouldIgnore : Option ErrorPredicate) (r : Run ρ) : Run ρ :=
  match r.completion, shouldIgnore with
  | Completion.returned _ (some err), some p =>
    if p err then { events := r.events, completion := Completion.returned none none } else r
  | _, _ => r

/-- A Get retrieval of table `t` as the host runs it. -/
def Table.runGet {W ρ : Type} (t : Table W ρ) (d : QueryData) (w : W) : Run ρ :=
  ignoreError t.Get.ShouldIgnoreError (t.Get.Hydrate d w)

/-- A List retrieval of table `t` as the host runs it. -/
def Table.runList {W ρ : Type} (t : Table W ρ) (fuel : Nat) (d : QueryData) (w : W) : Run ρ :=
  ignoreError t.List.ShouldIgnoreError (t.List.Hydrate fuel d w)

/-! ## A scripted provider

A provider with a fixed answer to everything: the pages of each listing, the
record of each lookup, and which request fails. Its world is the number of
listing requests issued so far. Every `List` call starts the listing at its
first page. A page cursor is the list of pages from the current one on, and
behaves as the SDK documents its collection pages: `Values` is "the slice of
values for the current page", `NotDone` is true while the current page holds
a value, and `NextWithContext` "advances to the next page of values; if there
was an error making the request the page does not advance and the error is
returned". On the last page there is no next link: no request is made and the
page becomes empty. An empty page that has a next link is never handed out:
`List` and `NextWithContext` request on until a page holds a value or is the
last one. -/

/-- The script of a provider. -/
structure Script where
  session : Except Err Session
  sites : List (List Site)
  plans : List (List AppServicePlan)
  failure : Nat → Option Err
  site : String → String → Except Err Site
  plan : String → String → Except Err AppServicePlan

/-- The values of the current page. -/
def pageValues {ρ : Type} : List (List ρ) → List ρ
  | [] => []
  | page :: _ => page

/-- Whether the current page holds a value. -/
def pageNotDone {ρ : Type} : List (List ρ) → Bool
  | [] => false
  | page :: _ => !page.isEmpty

/-- The method `NextWithContext` on a cursor, its first request being number
`k`. On the last page there is no next link: no request is made and the page
becomes empty. Otherwise the following page is requested; a failing request
leaves the page where it is and returns the error; an empty page that has a
following page is passed over by a further request. -/
def pageNext {ρ : Type} (failure : Nat → Option Err) :
    List (List ρ) → Nat → (List (List ρ) × Option Err) × Nat
  | [], k => (([], none), k)
  | page :: tail, k =>
    match tail with
    | [] => (([], none), k)
    | following :: rest =>
      match failure k with
      | some err => ((page :: following :: rest, some err), k + 1)
      | none =>
        if following.isEmpty && !rest.isEmpty then
          pageNext failure tail (k + 1)
        else
          ((following :: rest, none), k + 1)

/-- The call `webClient.List`, its first request being number `k`: the listing
starts at its first page; when that page is empty and has a following page the
SDK advances at once, and an error of that advance is the error of the call. -/
def pageList {ρ : Type} (failure : Nat → Option Err) (pages : List (List ρ)) (k : Nat) :
    Except Err (List (List ρ)) × Nat :=
  match failure k with
  | some err => (Except.error err, k + 1)
  | none =>
    match pages with
    | page :: _ :: _ =>
      if page.isEmpty then
        match pageNext failure pages (k + 1) with
        | ((_, some err), k1) => (Except.error err, k1)
        | ((cursor, none), k1) => (Except.ok cursor, k1)
      else
        (Except.ok pages, k + 1)
    | _ => (Except.ok pages, k + 1)

/-- The collection page of a scripted provider. -/
def scriptedPage (ρ : Type) (failure : Nat → Option Err) : CollectionPage Nat (List (List ρ)) ρ :=
  { Values := pageValues, NextWithContext := pageNext failure, NotDone := pageNotDone }

/-- The provider that follows script `s`. -/
def Script.provider (s : Script) : Provider Nat (List (List Site)) (List (List AppServicePlan)) :=
  { GetNewSession := fun w => (s.session, w),
    AppsList := fun _ w => pageList s.failure s.sites w,
    AppsGet := fun _ resourceGroup name w => (s.site resourceGroup name, w),
    AppCollectionPage := scriptedPage Site s.failure,
    PlansList := fun _ _ w => pageList s.failure s.plans w,
    PlansGet := fun _ resourceGroup name w => (s.plan resourceGroup name, w),
    AppServicePlanCollectionPage := scriptedPage AppServicePlan s.failure }

/-- A query with the key columns `name` and `resource_group`. -/
def keyQuery (name resourceGroup : String) : QueryData :=
  { KeyColumnQuals := [("name", QualValue.StringValue name),
                       ("resource_group", QualValue.StringValue resourceGroup)] }

/-- A session of the examples. -/
def session0 : Session := { SubscriptionID := "sub-0", Authorizer := "token" }

/-- A function app record. -/
def functionSite (name : String) : Site :=
  { ID := some ("/sites/" ++ name), Name := some name, Kind := some "functionapp,linux" }

/-- A web app record. -/
def webSite (name : String) : Site :=
  { ID := some ("/sites/" ++ name), Name := some name, Kind := some "app" }

/-- A plan record. -/
def servicePlan (name : String) : AppServicePlan :=
  { ID := some ("/serverfarms/" ++ name), Name := some name, Kind := some "linux" }

/-- A provider that answers: a one-page listing of each kind and a record for every lookup. -/
def quietScript : Script :=
  { session := Except.ok session0,
    sites := [[functionSite "f1", webSite "w1"]],
    plans := [[servicePlan "p1"]],
    failure := fun _ => none,
    site := fun _ name => Except.ok (functionSite name),
    plan := fun _ name => Except.ok (servicePlan name) }

/-- A provider that never fails, with the given pages of sites and of plans. -/
def pagedScript (sites : List (List Site)) (plans : List (List AppServicePlan)) : Script :=
  { session := Except.ok session0,
    sites := sites,
    plans := plans,
    failure := fun _ => none,
    site := fun _ name => Except.ok (functionSite name),
    plan := fun _ name => Except.ok (servicePlan name) }

/-- The listing of the scenario: two pages of sites, the first with three
function apps and one web app, the second with two function apps; and two
pages of plans. -/
def twoPageScript : Script :=
  pagedScript
    [[functionSite "f1", functionSite "f2", webSite "w1", functionSite "f3"],
     [functionSite "f4", functionSite "f5"]]
    [[servicePlan "p1", servicePlan "p2"], [servicePlan "p3"]]

/-- A site record without a kind (`Kind == nil`). -/
def noKindSite : Site := { ID := some "/sites/legacy", Name := some "legacy", Kind := none }

/-- A site record the provider returns as "empty data": no field is set. -/
def absentIdSite : Site := { ID := none, Name := none, Kind := none }

/-- A site record whose identifier is the empty string. -/
def emptyIdSite : Site := { ID := some "", Name := some "app1", Kind := some "functionapp" }

/-- A plan record the provider returns as "empty data": no field is set. -/
def absentIdPlan : AppServicePlan := { ID := none, Name := none, Kind := none }

/-- A provider whose lookups all succeed, with the site `op` and the plan `plan`. -/
def lookupScript (op : Site) (plan : AppServicePlan) : Script :=
  { session := Except.ok session0,
    sites := [],
    plans := [],
    failure := fun _ => none,
    site := fun _ _ => Except.ok op,
    plan := fun _ _ => Except.ok plan }

/-- An authorization failure. -/
def authFailure : Err :=
  { code := "AuthorizationFailed", message := "the client is not authorized" }

/-- The provider's "resource not found". -/
def notFound : Err :=
  { code := "ResourceNotFound", message := "the resource was not found" }

/-- The provider's "resource group not found". -/
def groupNotFound : Err :=
  { code := "ResourceGroupNotFound", message := "the resource group was not found" }

/-- A throttling failure. -/
def throttled : Err :=
  { code := "TooManyRequests", message := "the request was throttled" }

/-- A provider whose session manager fails. -/
def sessionDownScript : Script :=
  { session := Except.error authFailure,
    sites := [[functionSite "f1"]],
    plans := [[servicePlan "p1"]],
    failure := fun _ => none,
    site := fun _ name => Except.ok (functionSite name),
    plan := fun _ name => Except.ok (servicePlan name) }

/-- A provider every request of which fails with `err`. -/
def failingScript (err : Err) : Script :=
  { session := Except.ok session0,
    sites := [[functionSite "f1"]],
    plans := [[servicePlan "p1"]],
    failure := fun _ => some err,
    site := fun _ _ => Except.error err,
    plan := fun _ _ => Except.error err }

/-- A provider with the given pages whose second listing request (request
number 1, the first move to a following page) is throttled. -/
def secondRequestFailsScript (sites : List (List Site)) (plans : List (List AppServicePlan)) :
    Script :=
  { session := Except.ok session0,
    sites := sites,
    plans := plans,
    failure := fun k => if k = 1 then some throttled else none,
    site := fun _ name => Except.ok (functionSite name),
    plan := fun _ name => Except.ok (servicePlan name) }

/-- The client that `listAppServiceFunctionApps` and `getAppServiceFunctionApp`
build from a session. -/
def appsClientOf (session : Session) : AppsClient :=
  { NewAppsClient session.SubscriptionID with Authorizer := some session.Authorizer }

/-- The client that `listAppServicePlans` and `getAppServicePlan` build from a session. -/
def plansClientOf (session : Session) : AppServicePlansClient :=
  { NewAppServicePlansClient session.SubscriptionID with Authorizer := some session.Authorizer }

/-- The discriminator of the function app table as the specification words it:
the record's kind contains "functionapp" (a record without a kind has no such kind). -/
def isFunctionApp (functionApp : Site) : Bool :=
  match functionApp.Kind with
  | some kind => stringsContains kind "functionapp"
  | none => false

/-! ## Lemmas -/

theorem len_lt_one_iff (s : String) : len s < 1 ↔ s = "" := by
  obtain ⟨l⟩ := s
  cases l with
  | nil => simp [len, String.utf8ByteSize, String.utf8ByteSize.go]
  | cons c cs =>
    have := Char.utf8Size_pos c
    simp [len, String.utf8ByteSize, String.utf8ByteSize.go]
    constructor
    · omega
    · intro h; exact absurd h (by simp [String.ext_iff])

theorem not_len_lt_one {s : String} (h : s ≠ "") : ¬ len s < 1 :=
  fun hlt => h ((len_lt_one_iff s).1 hlt)

theorem streamed_append {ρ : Type} (a b : List (Event ρ)) :
    streamed (a ++ b) = streamed a ++ streamed b := by
  induction a with
  | nil => rfl
  | cons ev a ih => cases ev <;> simp [streamed, ih]

theorem listCalls_append {ρ : Type} (a b : List (Event ρ)) :
    listCalls (a ++ b) = listCalls a + listCalls b := by
  induction a with
  | nil => simp [listCalls]
  | cons ev a ih =>
    cases ev <;> simp [listCalls, ih]
    omega

theorem streamed_map_stream {ρ : Type} (items : List ρ) :
    streamed (items.map Event.stream) = items := by
  induction items with
  | nil => rfl
  | cons x items ih => simp [streamed, ih]

theorem listCalls_map_stream {ρ : Type} (items : List ρ) :
    listCalls (items.map Event.stream) = 0 := by
  induction items with
  | nil => rfl
  | cons x items ih => simp [listCalls, ih]

theorem streamFunctionApps_of_kinds (page : List Site) (hk : ∀ x ∈ page, x.Kind ≠ none) :
    streamFunctionApps page = ((page.filter isFunctionApp).map Event.stream, true) := by
  induction page with
  | nil => rfl
  | cons x page ih =>
    have hx : x.Kind ≠ none := hk x (List.mem_cons_self x page)
    have ih1 := ih (fun y hy => hk y (List.mem_cons_of_mem x hy))
    cases hkind : x.Kind with
    | none => exact absurd hkind hx
    | some kind =>
      by_cases hc : stringsContains kind "functionapp" = true
      · simp [streamFunctionApps, hkind, hc, ih1, isFunctionApp, List.filter_cons]
      · simp [streamFunctionApps, hkind, hc, ih1, isFunctionApp, List.filter_cons]

theorem streamServicePlans_eq (page : List AppServicePlan) :
    streamServicePlans page = page.map Event.stream := by
  induction page with
  | nil => rfl
  | cons x page ih => simp [streamServicePlans, ih]

theorem ignoreError_none {ρ : Type} (r : Run ρ) : ignoreError none r = r := by
  unfold ignoreError
  split <;> simp_all

theorem pageList_of_nonempty {ρ : Type} (failure : Nat → Option Err) (page : List ρ)
    (more : List (List ρ)) (k : Nat) (hfail : failure k = none) (hpage : page ≠ []) :
    pageList failure (page :: more) k = (Except.ok (page :: more), k + 1) := by
  cases page with
  | nil => exact absurd rfl hpage
  | cons x xs => cases more <;> simp [pageList, hfail]

theorem pageNext_of_nonempty {ρ : Type} (failure : Nat → Option Err) (page following : List ρ)
    (rest : List (List ρ)) (k : Nat) (hfail : failure k = none) (hne : following ≠ []) :
    pageNext failure (page :: following :: rest) k = ((following :: rest, none), k + 1) := by
  cases following with
  | nil => exact absurd rfl hne
  | cons x xs => simp [pageNext, hfail]

/-- On a scripted listing of sites with non-empty first and second pages and no failure,
every iteration of the function app loop starts the listing again: the loop
never ends, and each iteration streams the first page's function apps. -/
theorem scripted_apps_loop_repeats (s : Script) (page following : List Site)
    (rest : List (List Site)) (hsites : s.sites = page :: following :: rest)
    (hfail : ∀ k, s.failure k = none) (hpage : page ≠ []) (hne : following ≠ [])
    (hk : ∀ x ∈ page, x.Kind ≠ none) (webClient : AppsClient) (err : Option Err)
    (fuel k : Nat) :
    (listAppServiceFunctionAppsLoop s.provider webClient err fuel k).completion =
        Completion.unfinished ∧
      streamed (listAppServiceFunctionAppsLoop s.provider webClient err fuel k).events =
        (List.replicate fuel (page.filter isFunctionApp)).flatten ∧
      listCalls (listAppServiceFunctionAppsLoop s.provider webClient err fuel k).events =
        fuel := by
  induction fuel generalizing k with
  | zero => simp [listAppServiceFunctionAppsLoop, streamed, listCalls]
  | succ fuel ih =>
    have h := ih (k + 1 + 1)
    have hnd : pageNotDone (following :: rest) = true := by
      cases following with
      | nil => exact absurd rfl hne
      | cons x xs => rfl
    simp only [listAppServiceFunctionAppsLoop, Script.provider, scriptedPage, pageValues,
      hsites, pageList_of_nonempty s.failure page (following :: rest) _ (hfail _) hpage,
      pageNext_of_nonempty s.failure page following rest _ (hfail _) hne,
      streamFunctionApps_of_kinds page hk, hnd] at h ⊢
    simp [Run.after, streamed_append, listCalls_append, streamed, listCalls, h,
      List.replicate_succ, streamed_map_stream, listCalls_map_stream]

/-- The same for the plan loop. -/
theorem scripted_plans_loop_repeats (s : Script) (page following : List AppServicePlan)
    (rest : List (List AppServicePlan)) (hplans : s.plans = page :: following :: rest)
    (hfail : ∀ k, s.failure k = none) (hpage : page ≠ []) (hne : following ≠ [])
    (webClient : AppServicePlansClient) (err : Option Err) (fuel k : Nat) :
    (listAppServicePlansLoop s.provider webClient err fuel k).completion =
        Completion.unfinished ∧
      streamed (listAppServicePlansLoop s.provider webClient err fuel k).events =
        (List.replicate fuel page).flatten ∧
      listCalls (listAppServicePlansLoop s.provider webClient err fuel k).events = fuel := by
  induction fuel generalizing k with
  | zero => simp [listAppServicePlansLoop, streamed, listCalls]
  | succ fuel ih =>
    have h := ih (k + 1 + 1)
    have hnd : pageNotDone (following :: rest) = true := by
      cases following with
      | nil => exact absurd rfl hne
      | cons x xs => rfl
    simp only [listAppServicePlansLoop, Script.provider, scriptedPage, pageValues,
      hplans, pageList_of_nonempty s.failure page (following :: rest) _ (hfail _) hpage,
      pageNext_of_nonempty s.failure page following rest _ (hfail _) hne,
      streamServicePlans_eq, hnd] at h ⊢
    simp [Run.after, streamed_append, listCalls_append, streamed, listCalls, h,
      List.replicate_succ, streamed_map_stream, listCalls_map_stream]

theorem listAppServiceFunctionApps_scripted (s : Script) (session : Session)
    (hs : s.session = Except.ok session) (fuel : Nat) (d : QueryData) (k : Nat) :
    listAppServiceFunctionApps s.provider fuel d k =
      Run.after [Event.getNewSession]
        (listAppServiceFunctionAppsLoop s.provider (appsClientOf session) none fuel k) := by
  simp [listAppServiceFunctionApps, Script.provider, hs, appsClientOf]

theorem listAppServicePlans_scripted (s : Script) (session : Session)
    (hs : s.session = Except.ok session) (fuel : Nat) (d : QueryData) (k : Nat) :
    listAppServicePlans s.provider fuel d k =
      Run.after [Event.getNewSession]
        (listAppServicePlansLoop s.provider (plansClientOf session) none fuel k) := by
  simp [listAppServicePlans, Script.provider, hs, plansClientOf]

/-! ## The Get retrievers -/

/-- Claim C1: when the `resource_group` key is the empty string, whatever the
name, `getAppServiceFunctionApp` and `getAppServicePlan` return no result and
no error, and their only effect is the trace line: no session is obtained and
no provider call is issued. -/
theorem get_empty_resource_group {W σA σP : Type} (az : Provider W σA σP) (d : QueryData) (w : W)
    (h : GetStringValue (d.qual "resource_group") = "") :
    getAppServiceFunctionApp az d w =
        { events := [Event.logTrace "getAppServiceFunctionApp"],
          completion := Completion.returned none none } ∧
      getAppServicePlan az d w =
        { events := [Event.logTrace "getAppServicePlan"],
          completion := Completion.returned none none } ∧
      (getAppServiceFunctionApp az d w).events.any Event.isRemote = false ∧
      (getAppServicePlan az d w).events.any Event.isRemote = false := by
  have hlen : len (GetStringValue (d.qual "resource_group")) < 1 := (len_lt_one_iff _).2 h
  simp [getAppServiceFunctionApp, getAppServicePlan, hlen, Event.isRemote]

/-- The scenario of C1: name "app1", resource group "". -/
theorem get_empty_resource_group_witness :
    GetStringValue ((keyQuery "app1" "").qual "resource_group") = "" ∧
      getAppServiceFunctionApp quietScript.provider (keyQuery "app1" "") 0 =
        { events := [Event.logTrace "getAppServiceFunctionApp"],
          completion := Completion.returned none none } ∧
      getAppServicePlan quietScript.provider (keyQuery "app1" "") 0 =
        { events := [Event.logTrace "getAppServicePlan"],
          completion := Completion.returned none none } :=
  ⟨rfl, (get_empty_resource_group quietScript.provider (keyQuery "app1" "") 0 rfl).1,
    (get_empty_resource_group quietScript.provider (keyQuery "app1" "") 0 rfl).2.1⟩

/-- Against C2 as stated: a successful lookup whose record has the identifier
`""` is returned by `getAppServiceFunctionApp` as the result, not as "no
result"; and `getAppServicePlan`, which checks no identifier, returns even a
record without one. -/
theorem get_empty_string_id_is_found :
    emptyIdSite.ID = some "" ∧
      (getAppServiceFunctionApp (lookupScript emptyIdSite absentIdPlan).provider
          (keyQuery "app1" "rg1") 0).completion =
        Completion.returned (some emptyIdSite) none ∧
      (getAppServiceFunctionApp (lookupScript emptyIdSite absentIdPlan).provider
          (keyQuery "app1" "rg1") 0).completion ≠ Completion.returned none none ∧
      absentIdPlan.ID = none ∧
      (getAppServicePlan (lookupScript emptyIdSite absentIdPlan).provider
          (keyQuery "plan1" "rg1") 0).completion =
        Completion.returned (some absentIdPlan) none := by
  decide

/-- Claim C2, amended: with a non-empty resource group, a session and a
successful lookup, `getAppServiceFunctionApp` returns no result and no error
when the record's identifier is absent (nil), and returns the record when the
identifier is present, whatever string it is. -/
theorem get_function_app_absent_id {W σA σP : Type} (az : Provider W σA σP) (d : QueryData)
    (w w1 w2 : W) (session : Session) (op : Site)
    (hrg : GetStringValue (d.qual "resource_group") ≠ "")
    (hsession : az.GetNewSession w = (Except.ok session, w1))
    (hget : az.AppsGet (appsClientOf session) (GetStringValue (d.qual "resource_group"))
      (GetStringValue (d.qual "name")) w1 = (Except.ok op, w2)) :
    (op.ID = none →
        (getAppServiceFunctionApp az d w).completion = Completion.returned none none) ∧
      (op.ID ≠ none →
        (getAppServiceFunctionApp az d w).completion = Completion.returned (some op) none) := by
  have hlen := not_len_lt_one hrg
  unfold appsClientOf at hget
  constructor
  · intro hid
    simp [getAppServiceFunctionApp, hlen, hsession, hget, hid]
  · intro hid
    simp [getAppServiceFunctionApp, hlen, hsession, hget, hid]

/-- The amended C2 on a record without identifier and on one with the identifier `""`. -/
theorem get_function_app_absent_id_witness :
    (getAppServiceFunctionApp (lookupScript absentIdSite absentIdPlan).provider
        (keyQuery "app1" "rg1") 0).completion = Completion.returned none none ∧
      (getAppServiceFunctionApp (lookupScript emptyIdSite absentIdPlan).provider
        (keyQuery "app1" "rg1") 0).completion = Completion.returned (some emptyIdSite) none :=
  ⟨(get_function_app_absent_id (lookupScript absentIdSite absentIdPlan).provider (keyQuery "app1" "rg1")
      0 0 0 session0 absentIdSite (by decide) rfl rfl).1 rfl,
    (get_function_app_absent_id (lookupScript emptyIdSite absentIdPlan).provider (keyQuery "app1" "rg1")
      0 0 0 session0 emptyIdSite (by decide) rfl rfl).2 (by decide)⟩

/-- Claim C6: an error `e` of the session manager or of the provider comes back
as it is. When obtaining the session fails with `e`, both Get retrievers (on a
non-empty resource group) and both List retrievers return no value and `e`,
having called nothing else. When the session is there and the lookup fails
with `e`, the Get retriever returns no record and `e`; when the first `List`
request fails with `e`, the List retriever returns `e` and has streamed nothing. -/
theorem errors_returned_unchanged {W σA σP : Type} (az : Provider W σA σP) (d : QueryData)
    (w : W) (e : Err) (fuel : Nat) :
    (∀ w1, az.GetNewSession w = (Except.error e, w1) →
      (GetStringValue (d.qual "resource_group") ≠ "" →
        getAppServiceFunctionApp az d w =
            { events := [Event.logTrace "getAppServiceFunctionApp", Event.getNewSession],
              completion := Completion.returned none (some e) } ∧
          getAppServicePlan az d w =
            { events := [Event.logTrace "getAppServicePlan", Event.getNewSession],
              completion := Completion.returned none (some e) }) ∧
      listAppServiceFunctionApps az fuel d w =
        { events := [Event.getNewSession], completion := Completion.returned none (some e) } ∧
      listAppServicePlans az fuel d w =
        { events := [Event.getNewSession], completion := Completion.returned none (some e) }) ∧
    (∀ session w1, az.GetNewSession w = (Except.ok session, w1) →
      (GetStringValue (d.qual "resource_group") ≠ "" →
        (∀ w2, az.AppsGet (appsClientOf session) (GetStringValue (d.qual "resource_group"))
            (GetStringValue (d.qual "name")) w1 = (Except.error e, w2) →
          getAppServiceFunctionApp az d w =
            { events := [Event.logTrace "getAppServiceFunctionApp", Event.getNewSession,
                Event.getCall (GetStringValue (d.qual "resource_group"))
                  (GetStringValue (d.qual "name"))],
              completion := Completion.returned none (some e) }) ∧
        (∀ w2, az.PlansGet (plansClientOf session) (GetStringValue (d.qual "resource_group"))
            (GetStringValue (d.qual "name")) w1 = (Except.error e, w2) →
          getAppServicePlan az d w =
            { events := [Event.logTrace "getAppServicePlan", Event.getNewSession,
                Event.getCall (GetStringValue (d.qual "resource_group"))
                  (GetStringValue (d.qual "name"))],
              completion := Completion.returned none (some e) })) ∧
      (∀ w2, az.AppsList (appsClientOf session) w1 = (Except.error e, w2) →
        listAppServiceFunctionApps az (fuel + 1) d w =
          { events := [Event.getNewSession, Event.listCall],
            completion := Completion.returned none (some e) }) ∧
      (∀ w2, az.PlansList (plansClientOf session) (some true) w1 = (Except.error e, w2) →
        listAppServicePlans az (fuel + 1) d w =
          { events := [Event.getNewSession, Event.listCall],
            completion := Completion.returned none (some e) })) := by
  refine ⟨fun w1 hs => ⟨fun hrg => ?_, ?_, ?_⟩, fun session w1 hs => ⟨fun hrg => ⟨?_, ?_⟩, ?_, ?_⟩⟩
  · have hlen := not_len_lt_one hrg
    simp [getAppServiceFunctionApp, getAppServicePlan, hlen, hs]
  · simp [listAppServiceFunctionApps, hs]
  · simp [listAppServicePlans, hs]
  · intro w2 hget
    have hlen := not_len_lt_one hrg
    unfold appsClientOf at hget
    simp [getAppServiceFunctionApp, hlen, hs, hget]
  · intro w2 hget
    have hlen := not_len_lt_one hrg
    unfold plansClientOf at hget
    simp [getAppServicePlan, hlen, hs, hget]
  · intro w2 hlist
    unfold appsClientOf at hlist
    simp [listAppServiceFunctionApps, listAppServiceFunctionAppsLoop, hs, hlist, Run.after]
  · intro w2 hlist
    unfold plansClientOf at hlist
    simp [listAppServicePlans, listAppServicePlansLoop, hs, hlist, Run.after]

/-- C6 on a provider whose session manager fails and on one whose requests fail. -/
theorem errors_returned_unchanged_witness :
    (getAppServiceFunctionApp sessionDownScript.provider (keyQuery "app1" "rg1") 0 =
        { events := [Event.logTrace "getAppServiceFunctionApp", Event.getNewSession],
          completion := Completion.returned none (some authFailure) } ∧
      listAppServicePlans sessionDownScript.provider 7 (keyQuery "app1" "rg1") 0 =
        { events := [Event.getNewSession],
          completion := Completion.returned none (some authFailure) }) ∧
    (getAppServicePlan (failingScript notFound).provider (keyQuery "app1" "rg1") 0 =
        { events := [Event.logTrace "getAppServicePlan", Event.getNewSession,
            Event.getCall "rg1" "app1"],
          completion := Completion.returned none (some notFound) } ∧
      listAppServiceFunctionApps (failingScript notFound).provider 8 (keyQuery "app1" "rg1") 0 =
        { events := [Event.getNewSession, Event.listCall],
          completion := Completion.returned none (some notFound) }) :=
  ⟨⟨(((errors_returned_unchanged sessionDownScript.provider (keyQuery "app1" "rg1") 0
        authFailure 7).1 0 rfl).1 (by decide)).1,
      ((errors_returned_unchanged sessionDownScript.provider (keyQuery "app1" "rg1") 0
        authFailure 7).1 0 rfl).2.2⟩,
    ⟨(((errors_returned_unchanged (failingScript notFound).provider (keyQuery "app1" "rg1") 0
        notFound 7).2 session0 0 rfl).1 (by decide)).2 0 rfl,
      ((errors_returned_unchanged (failingScript notFound).provider (keyQuery "app1" "rg1") 0
        notFound 7).2 session0 0 rfl).2.1 1 rfl⟩⟩

/-! ## The table definitions -/

/-- Against C8 as stated: a `List` request answered "ResourceNotFound" or
"ResourceGroupNotFound" is not turned into an empty listing; the List
configuration of both tables carries no ignore predicate and the error is
what the retrieval returns. -/
theorem list_not_found_is_propagated :
    (tableAzureAppServiceFunctionApp (failingScript notFound).provider).runList 1
        (keyQuery "" "") 0 =
      { events := [Event.getNewSession, Event.listCall],
        completion := Completion.returned none (some notFound) } ∧
    (tableAzureAppServicePlan (failingScript groupNotFound).provider).runList 1
        (keyQuery "" "") 0 =
      { events := [Event.getNewSession, Event.listCall],
        completion := Completion.returned none (some groupNotFound) } ∧
    (tableAzureAppServiceFunctionApp (failingScript notFound).provider).List.ShouldIgnoreError.isNone
      = true ∧
    (tableAzureAppServicePlan (failingScript notFound).provider).List.ShouldIgnoreError.isNone
      = true := by
  decide

/-- Claim C8, amended: in both tables the predicate built from
"ResourceNotFound" and "ResourceGroupNotFound" is attached to the Get
configuration and the List configuration has none. So a Get whose hydrate
function fails with an error of one of these codes yields no result and no
error, and a List retrieval is exactly what its hydrate function returns. -/
theorem not_found_ignored_by_get_only {W σA σP : Type} (az : Provider W σA σP) (d : QueryData)
    (w : W) (e : Err) (he : e.code = "ResourceNotFound" ∨ e.code = "ResourceGroupNotFound") :
    ((tableAzureAppServiceFunctionApp az).Get.ShouldIgnoreError =
        some (isNotFoundError ["ResourceNotFound", "ResourceGroupNotFound"]) ∧
      (tableAzureAppServicePlan az).Get.ShouldIgnoreError =
        some (isNotFoundError ["ResourceNotFound", "ResourceGroupNotFound"]) ∧
      (tableAzureAppServiceFunctionApp az).List.ShouldIgnoreError = none ∧
      (tableAzureAppServicePlan az).List.ShouldIgnoreError = none) ∧
    (∀ v, (getAppServiceFunctionApp az d w).completion = Completion.returned v (some e) →
      ((tableAzureAppServiceFunctionApp az).runGet d w).completion =
        Completion.returned none none) ∧
    (∀ v, (getAppServicePlan az d w).completion = Completion.returned v (some e) →
      ((tableAzureAppServicePlan az).runGet d w).completion = Completion.returned none none) ∧
    (∀ fuel, (tableAzureAppServiceFunctionApp az).runList fuel d w =
      listAppServiceFunctionApps az fuel d w) ∧
    (∀ fuel, (tableAzureAppServicePlan az).runList fuel d w =
      listAppServicePlans az fuel d w) := by
  have hp : isNotFoundError ["ResourceNotFound", "ResourceGroupNotFound"] e = true := by
    rcases he with h | h <;> simp [isNotFoundError, h]
  refine ⟨⟨rfl, rfl, rfl, rfl⟩, ?_, ?_, ?_, ?_⟩
  · intro v hv
    simp [Table.runGet, tableAzureAppServiceFunctionApp, ignoreError, hv, hp]
  · intro v hv
    simp [Table.runGet, tableAzureAppServicePlan, ignoreError, hv, hp]
  · intro fuel
    simp [Table.runList, tableAzureAppServiceFunctionApp, ignoreError_none]
  · intro fuel
    simp [Table.runList, tableAzureAppServicePlan, ignoreError_none]

/-- The amended C8 on providers that answer "not found". -/
theorem not_found_ignored_by_get_only_witness :
    ((tableAzureAppServiceFunctionApp (failingScript notFound).provider).runGet
        (keyQuery "app1" "rg1") 0).completion = Completion.returned none none ∧
    ((tableAzureAppServicePlan (failingScript groupNotFound).provider).runGet
        (keyQuery "app1" "rg1") 0).completion = Completion.returned none none ∧
    (tableAzureAppServicePlan (failingScript groupNotFound).provider).runList 1
        (keyQuery "app1" "rg1") 0 =
      listAppServicePlans (failingScript groupNotFound).provider 1 (keyQuery "app1" "rg1") 0 :=
  ⟨(not_found_ignored_by_get_only (failingScript notFound).provider (keyQuery "app1" "rg1") 0
      notFound (Or.inl rfl)).2.1 none (by decide),
    (not_found_ignored_by_get_only (failingScript groupNotFound).provider (keyQuery "app1" "rg1")
      0 groupNotFound (Or.inr rfl)).2.2.1 none (by decide),
    (not_found_ignored_by_get_only (failingScript groupNotFound).provider (keyQuery "app1" "rg1")
      0 groupNotFound (Or.inr rfl)).2.2.2.2 1⟩

/-! ## The list retrievers on listings of several pages -/

/-- Claim C3, evaluated: on the scenario's listing (page 1: three function apps and a web app,
page 2: two function apps) `listAppServiceFunctionApps` does not stream five
records: whatever the number of loop iterations allowed, the loop is still
running, it has streamed the three function apps of page 1 once per iteration,
and the record "f4" of page 2 was never streamed. `listAppServicePlans`
repeats the first page of plans likewise. -/
theorem two_page_listing_repeats_first_page (fuel : Nat) :
    (listAppServiceFunctionApps twoPageScript.provider fuel (keyQuery "" "") 0).completion =
        Completion.unfinished ∧
      streamed (listAppServiceFunctionApps twoPageScript.provider fuel (keyQuery "" "") 0).events =
        (List.replicate fuel
          [functionSite "f1", functionSite "f2", functionSite "f3"]).flatten ∧
      functionSite "f4" ∉
        streamed (listAppServiceFunctionApps twoPageScript.provider fuel (keyQuery "" "") 0).events ∧
      (listAppServicePlans twoPageScript.provider fuel (keyQuery "" "") 0).completion =
        Completion.unfinished ∧
      streamed (listAppServicePlans twoPageScript.provider fuel (keyQuery "" "") 0).events =
        (List.replicate fuel [servicePlan "p1", servicePlan "p2"]).flatten := by
  have ha := scripted_apps_loop_repeats twoPageScript
    [functionSite "f1", functionSite "f2", webSite "w1", functionSite "f3"]
    [functionSite "f4", functionSite "f5"] [] rfl (fun _ => rfl) (by decide) (by decide)
    (by decide) (appsClientOf session0) none fuel 0
  have hp := scripted_plans_loop_repeats twoPageScript
    [servicePlan "p1", servicePlan "p2"] [servicePlan "p3"] [] rfl (fun _ => rfl) (by decide)
    (by decide) (plansClientOf session0) none fuel 0
  have hfilter : List.filter isFunctionApp
      [functionSite "f1", functionSite "f2", webSite "w1", functionSite "f3"] =
      [functionSite "f1", functionSite "f2", functionSite "f3"] := by decide
  rw [hfilter] at ha
  have hsa : streamed (listAppServiceFunctionApps twoPageScript.provider fuel
      (keyQuery "" "") 0).events =
      (List.replicate fuel [functionSite "f1", functionSite "f2", functionSite "f3"]).flatten := by
    have := ha.2.1
    simpa [listAppServiceFunctionApps, Script.provider, twoPageScript, pagedScript, Run.after,
      streamed, appsClientOf] using this
  refine ⟨?_, hsa, ?_, ?_, ?_⟩
  · have := ha.1
    simpa [listAppServiceFunctionApps, Script.provider, twoPageScript, pagedScript, Run.after,
      appsClientOf] using this
  · rw [hsa]
    intro hmem
    rcases List.mem_flatten.1 hmem with ⟨l, hl, hx⟩
    rw [List.eq_of_mem_replicate hl] at hx
    revert hx
    decide
  · have := hp.1
    simpa [listAppServicePlans, Script.provider, twoPageScript, pagedScript, Run.after,
      plansClientOf] using this
  · have := hp.2.1
    simpa [listAppServicePlans, Script.provider, twoPageScript, pagedScript, Run.after,
      streamed, plansClientOf] using this

/-- Claim C4, evaluated: a listing of two or more non-empty pages, no request failing, is a
listing the pagination loop does not finish: for plans on ANY such pages, and
for function apps on the scenario's two pages, after every number of
iterations the loop is still running and has issued one `List` request per
iteration, more than the listing has pages as soon as the budget exceeds it. -/
theorem several_pages_never_terminate (fuel : Nat) (a b : AppServicePlan)
    (p q : List AppServicePlan) (rest : List (List AppServicePlan)) :
    ((listAppServicePlans (pagedScript [] ((a :: p) :: (b :: q) :: rest)).provider fuel
          (keyQuery "" "") 0).completion = Completion.unfinished ∧
      listCalls (listAppServicePlans (pagedScript [] ((a :: p) :: (b :: q) :: rest)).provider
          fuel (keyQuery "" "") 0).events = fuel) ∧
    ((listAppServiceFunctionApps twoPageScript.provider fuel (keyQuery "" "") 0).completion =
        Completion.unfinished ∧
      listCalls (listAppServiceFunctionApps twoPageScript.provider fuel
          (keyQuery "" "") 0).events = fuel) := by
  have hp := scripted_plans_loop_repeats (pagedScript [] ((a :: p) :: (b :: q) :: rest))
    (a :: p) (b :: q) rest rfl (fun _ => rfl) (by simp) (by simp) (plansClientOf session0)
    none fuel 0
  have ha := scripted_apps_loop_repeats twoPageScript
    [functionSite "f1", functionSite "f2", webSite "w1", functionSite "f3"]
    [functionSite "f4", functionSite "f5"] [] rfl (fun _ => rfl) (by decide) (by decide)
    (by decide) (appsClientOf session0) none fuel 0
  rw [listAppServicePlans_scripted _ session0 rfl, listAppServiceFunctionApps_scripted _ session0 rfl]
  simp [Run.after, listCalls, hp.1, hp.2.2, ha.1, ha.2.2]

/-- Claim C5, evaluated: a page whose first record has no kind and whose second record is a
function app: the inner loop of `listAppServiceFunctionApps` faults on the
first record and the function app behind it is never streamed. -/
theorem page_with_nil_kind_skips_function_app (fuel : Nat) :
    streamFunctionApps [noKindSite, functionSite "f1"] = ([], false) ∧
      isFunctionApp (functionSite "f1") = true ∧
      listAppServiceFunctionApps (pagedScript [[noKindSite, functionSite "f1"]] []).provider
          (fuel + 1) (keyQuery "" "") 0 =
        { events := [Event.getNewSession, Event.listCall], completion := Completion.panicked } := by
  refine ⟨by decide, by decide, ?_⟩
  have hpage : streamFunctionApps [noKindSite, functionSite "f1"] = ([], false) := by decide
  rw [listAppServiceFunctionApps_scripted _ session0 rfl]
  simp [listAppServiceFunctionAppsLoop, Script.provider, pagedScript, pageList, scriptedPage,
    pageValues, hpage, Run.after]

/-- Claim C9, evaluated: a page holding a function app, then a record without a kind, then
another function app: `listAppServiceFunctionApps` streams the first, panics on
the nil kind, and neither skips that record nor reaches the third. -/
theorem nil_kind_panics (fuel : Nat) :
    listAppServiceFunctionApps
        (pagedScript [[functionSite "f1", noKindSite, functionSite "f2"]] []).provider
        (fuel + 1) (keyQuery "" "") 0 =
      { events := [Event.getNewSession, Event.listCall, Event.stream (functionSite "f1")],
        completion := Completion.panicked } := by
  have hpage : streamFunctionApps [functionSite "f1", noKindSite, functionSite "f2"] =
      ([Event.stream (functionSite "f1")], false) := by decide
  rw [listAppServiceFunctionApps_scripted _ session0 rfl]
  simp [listAppServiceFunctionAppsLoop, Script.provider, pagedScript, pageList, scriptedPage,
    pageValues, hpage, Run.after]

/-- Claim C10, evaluated: a listing of exactly one page, whose only record has no kind:
`listAppServiceFunctionApps` issues its one `List` request and panics; it does
not return (no value, no error). -/
theorem single_page_with_nil_kind_does_not_return (fuel : Nat) :
    pageNotDone (pageNext (fun _ => none) [[noKindSite]] 1).1.1 = false ∧
      listAppServiceFunctionApps (pagedScript [[noKindSite]] []).provider
          (fuel + 1) (keyQuery "" "") 0 =
        { events := [Event.getNewSession, Event.listCall], completion := Completion.panicked } ∧
      (listAppServiceFunctionApps (pagedScript [[noKindSite]] []).provider
          (fuel + 1) (keyQuery "" "") 0).completion ≠ Completion.returned none none := by
  have hpage : streamFunctionApps [noKindSite] = ([], false) := by decide
  have hrun : listAppServiceFunctionApps (pagedScript [[noKindSite]] []).provider
      (fuel + 1) (keyQuery "" "") 0 =
      { events := [Event.getNewSession, Event.listCall], completion := Completion.panicked } := by
    rw [listAppServiceFunctionApps_scripted _ session0 rfl]
    simp [listAppServiceFunctionAppsLoop, Script.provider, pagedScript, pageList, scriptedPage,
      pageValues, hpage, Run.after]
  refine ⟨by decide, hrun, ?_⟩
  rw [hrun]
  simp

/-- Claim C7, evaluated: a failing request for the following page does not
stop the listing. On two non-empty pages whose request for the second page is
throttled, `NextWithContext` returns that error and leaves the page in place,
and both retrievers drop the error and go on: after the failed advance a
further `List` request is issued, the first page is streamed again, and the
loop is still running; the error is not returned. -/
theorem next_page_failure_is_dropped :
    (secondRequestFailsScript [[functionSite "f1"], [functionSite "f2"]]
        [[servicePlan "p1"], [servicePlan "p2"]]).failure 1 = some throttled ∧
      pageNext (fun k => if k = 1 then some throttled else none)
          [[functionSite "f1"], [functionSite "f2"]] 1 =
        (([[functionSite "f1"], [functionSite "f2"]], some throttled), 2) ∧
      listAppServiceFunctionApps
          (secondRequestFailsScript [[functionSite "f1"], [functionSite "f2"]]
            [[servicePlan "p1"], [servicePlan "p2"]]).provider 2 (keyQuery "" "") 0 =
        { events := [Event.getNewSession,
            Event.listCall, Event.stream (functionSite "f1"), Event.nextCall,
            Event.listCall, Event.stream (functionSite "f1"), Event.nextCall],
          completion := Completion.unfinished } ∧
      listAppServicePlans
          (secondRequestFailsScript [[functionSite "f1"], [functionSite "f2"]]
            [[servicePlan "p1"], [servicePlan "p2"]]).provider 2 (keyQuery "" "") 0 =
        { events := [Event.getNewSession,
            Event.listCall, Event.stream (servicePlan "p1"), Event.nextCall,
            Event.listCall, Event.stream (servicePlan "p1"), Event.nextCall],
          completion := Completion.unfinished } := by
  decide

/-! ## What the list retrievers do get right -/

/-- On every page, the inner loop of `listAppServiceFunctionApps` handles the
records before the first one without a kind, streams of them exactly those
whose kind contains "functionapp", in page order, and completes the page if
and only if every record has a kind. -/
theorem function_app_page_characterised (page : List Site) :
    streamed (streamFunctionApps page).1 =
        (page.takeWhile (fun x => x.Kind.isSome)).filter isFunctionApp ∧
      (streamFunctionApps page).2 = page.all (fun x => x.Kind.isSome) := by
  induction page with
  | nil => exact ⟨rfl, rfl⟩
  | cons x page ih =>
    cases hkind : x.Kind with
    | none => simp [streamFunctionApps, hkind, streamed, List.takeWhile_cons]
    | some kind =>
      by_cases hc : stringsContains kind "functionapp" = true
      · simp [streamFunctionApps, hkind, hc, streamed, List.takeWhile_cons, List.filter_cons,
          isFunctionApp, ih.1, ih.2]
      · simp [streamFunctionApps, hkind, hc, List.takeWhile_cons, List.filter_cons,
          isFunctionApp, ih.1, ih.2]

/-- On a page whose records all have a kind, the inner loop of
`listAppServiceFunctionApps` streams exactly the records whose kind contains
"functionapp", in page order, and completes. -/
theorem function_app_page_filter (page : List Site) (hk : ∀ x ∈ page, x.Kind ≠ none) :
    streamFunctionApps page = ((page.filter isFunctionApp).map Event.stream, true) ∧
      streamed (streamFunctionApps page).1 = page.filter isFunctionApp := by
  rw [streamFunctionApps_of_kinds page hk]
  exact ⟨rfl, streamed_map_stream _⟩

/-- The page filter on a page of two function apps around a web app. -/
theorem function_app_page_filter_witness :
    streamed (streamFunctionApps [functionSite "f1", webSite "w1", functionSite "f2"]).1 =
      [functionSite "f1", functionSite "f2"] :=
  (function_app_page_filter [functionSite "f1", webSite "w1", functionSite "f2"]
    (by decide)).2

/-- The inner loop of `listAppServicePlans` streams every record of the page, in page order. -/
theorem service_plan_page_unfiltered (page : List AppServicePlan) :
    streamServicePlans page = page.map Event.stream ∧
      streamed (streamServicePlans page) = page := by
  rw [streamServicePlans_eq]
  exact ⟨rfl, streamed_map_stream _⟩

/-- With a session, a listing whose first page is reported to be the last one
after advancing, and a kind on every record of that page:
`listAppServiceFunctionApps` issues one `List` request, streams the function
apps of the page once each in page order, and returns (no value, no error),
whatever error the advance itself returned. -/
theorem single_page_function_apps {W σA σP : Type} (az : Provider W σA σP) (d : QueryData)
    (w w1 w2 w3 : W) (session : Session) (result result1 : σA) (nextErr : Option Err)
    (fuel : Nat)
    (hsession : az.GetNewSession w = (Except.ok session, w1))
    (hlist : az.AppsList (appsClientOf session) w1 = (Except.ok result, w2))
    (hnext : az.AppCollectionPage.NextWithContext result w2 = ((result1, nextErr), w3))
    (hdone : az.AppCollectionPage.NotDone result1 = false)
    (hk : ∀ x ∈ az.AppCollectionPage.Values result, x.Kind ≠ none) :
    listAppServiceFunctionApps az (fuel + 1) d w =
      { events := Event.getNewSession :: Event.listCall ::
          (((az.AppCollectionPage.Values result).filter isFunctionApp).map Event.stream ++
            [Event.nextCall]),
        completion := Completion.returned none none } := by
  unfold appsClientOf at hlist
  simp [listAppServiceFunctionApps, listAppServiceFunctionAppsLoop, hsession, hlist, hnext,
    hdone, streamFunctionApps_of_kinds _ hk, Run.after]

/-- The one-page listing of the quiet provider. -/
theorem single_page_function_apps_witness :
    listAppServiceFunctionApps quietScript.provider 1 (keyQuery "" "") 0 =
      { events := [Event.getNewSession, Event.listCall, Event.stream (functionSite "f1"),
          Event.nextCall],
        completion := Completion.returned none none } :=
  single_page_function_apps quietScript.provider (keyQuery "" "") 0 0 1 1 session0
    [[functionSite "f1", webSite "w1"]] [] none 0 rfl rfl rfl rfl (by decide)

/-- With a session and a listing whose first page is reported to be the last
one after advancing, `listAppServicePlans` issues one `List` request, streams
every plan of the page once in page order, and returns (no value, no error),
whatever error the advance itself returned. -/
theorem single_page_plans {W σA σP : Type} (az : Provider W σA σP) (d : QueryData)
    (w w1 w2 w3 : W) (session : Session) (result result1 : σP) (nextErr : Option Err)
    (fuel : Nat)
    (hsession : az.GetNewSession w = (Except.ok session, w1))
    (hlist : az.PlansList (plansClientOf session) (some true) w1 = (Except.ok result, w2))
    (hnext : az.AppServicePlanCollectionPage.NextWithContext result w2 =
      ((result1, nextErr), w3))
    (hdone : az.AppServicePlanCollectionPage.NotDone result1 = false) :
    listAppServicePlans az (fuel + 1) d w =
      { events := Event.getNewSession :: Event.listCall ::
          ((az.AppServicePlanCollectionPage.Values result).map Event.stream ++
            [Event.nextCall]),
        completion := Completion.returned none none } := by
  unfold plansClientOf at hlist
  simp [listAppServicePlans, listAppServicePlansLoop, hsession, hlist, hnext,
    hdone, streamServicePlans_eq, Run.after]

/-- The one-page plan listing of the quiet provider. -/
theorem single_page_plans_witness :
    listAppServicePlans quietScript.provider 1 (keyQuery "" "") 0 =
      { events := [Event.getNewSession, Event.listCall, Event.stream (servicePlan "p1"),
          Event.nextCall],
        completion := Completion.returned none none } :=
  single_page_plans quietScript.provider (keyQuery "" "") 0 0 1 1 session0
    [[servicePlan "p1"]] [] none 0 rfl rfl rfl rfl

/-- At whatever iteration a `List` request fails with `e`, the loop of either
retriever ends there: no item is streamed and `e` is returned unchanged. -/
theorem list_request_failure_ends_loop {W σA σP : Type} (az : Provider W σA σP)
    (apps : AppsClient) (plans : AppServicePlansClient) (err : Option Err) (fuel : Nat)
    (w : W) (e : Err) :
    (∀ w1, az.AppsList apps w = (Except.error e, w1) →
      listAppServiceFunctionAppsLoop az apps err (fuel + 1) w =
        { events := [Event.listCall], completion := Completion.returned none (some e) }) ∧
    (∀ w1, az.PlansList plans (some true) w = (Except.error e, w1) →
      listAppServicePlansLoop az plans err (fuel + 1) w =
        { events := [Event.listCall], completion := Completion.returned none (some e) }) := by
  constructor
  · intro w1 h
    simp [listAppServiceFunctionAppsLoop, h]
  · intro w1 h
    simp [listAppServicePlansLoop, h]

/-- A failing `List` request on the provider whose requests are throttled. -/
theorem list_request_failure_ends_loop_witness :
    listAppServiceFunctionAppsLoop (failingScript throttled).provider (appsClientOf session0)
        none 3 5 =
      { events := [Event.listCall], completion := Completion.returned none (some throttled) } ∧
    listAppServicePlansLoop (failingScript throttled).provider (plansClientOf session0)
        none 3 5 =
      { events := [Event.listCall], completion := Completion.returned none (some throttled) } :=
  ⟨(list_request_failure_ends_loop (failingScript throttled).provider (appsClientOf session0)
      (plansClientOf session0) none 2 5 throttled).1 6 rfl,
    (list_request_failure_ends_loop (failingScript throttled).provider (appsClientOf session0)
      (plansClientOf session0) none 2 5 throttled).2 6 rfl⟩

/-- Whatever the provider: when, in every world of a set `Inv` closed under one
iteration, `List` answers with the same first page `result` (a kind on every
record) and advancing it reports a further page, the loop of
`listAppServiceFunctionApps` never ends; each iteration streams the function
apps of that first page again. -/
theorem restarting_function_app_loop_never_ends {W σA σP : Type} (az : Provider W σA σP)
    (webClient : AppsClient) (err : Option Err) (Inv : W → Prop) (result result1 : σA)
    (hstep : ∀ w, Inv w → ∃ w1 w2 nextErr,
      az.AppsList webClient w = (Except.ok result, w1) ∧
      az.AppCollectionPage.NextWithContext result w1 = ((result1, nextErr), w2) ∧ Inv w2)
    (hk : ∀ x ∈ az.AppCollectionPage.Values result, x.Kind ≠ none)
    (hmore : az.AppCollectionPage.NotDone result1 = true)
    (fuel : Nat) (w : W) (hw : Inv w) :
    (listAppServiceFunctionAppsLoop az webClient err fuel w).completion =
        Completion.unfinished ∧
      streamed (listAppServiceFunctionAppsLoop az webClient err fuel w).events =
        (List.replicate fuel
          ((az.AppCollectionPage.Values result).filter isFunctionApp)).flatten := by
  induction fuel generalizing w with
  | zero => simp [listAppServiceFunctionAppsLoop, streamed]
  | succ fuel ih =>
    obtain ⟨w1, w2, nextErr, hlist, hnext, hw2⟩ := hstep w hw
    have h := ih w2 hw2
    simp [listAppServiceFunctionAppsLoop, hlist, hnext, hmore,
      streamFunctionApps_of_kinds _ hk, Run.after, streamed_append, streamed,
      streamed_map_stream, h, List.replicate_succ]

/-- The scenario's two pages of sites: the loop is still running after four iterations. -/
theorem restarting_function_app_loop_never_ends_witness :
    (listAppServiceFunctionAppsLoop twoPageScript.provider (appsClientOf session0) none 4
        0).completion = Completion.unfinished :=
  (restarting_function_app_loop_never_ends twoPageScript.provider (appsClientOf session0) none
    (fun _ => True)
    [[functionSite "f1", functionSite "f2", webSite "w1", functionSite "f3"],
     [functionSite "f4", functionSite "f5"]]
    [[functionSite "f4", functionSite "f5"]]
    (fun w _ => ⟨w + 1, w + 2, none, rfl, rfl, trivial⟩) (by decide) rfl 4 0 trivial).1

/-- Whatever the provider: when, in every world of a set `Inv` closed under one
iteration, `List` answers with the same first page `result` and advancing it
reports a further page, the loop of `listAppServicePlans` never ends; each
iteration streams that first page again. -/
theorem restarting_plan_loop_never_ends {W σA σP : Type} (az : Provider W σA σP)
    (webClient : AppServicePlansClient) (err : Option Err) (Inv : W → Prop)
    (result result1 : σP)
    (hstep : ∀ w, Inv w → ∃ w1 w2 nextErr,
      az.PlansList webClient (some true) w = (Except.ok result, w1) ∧
      az.AppServicePlanCollectionPage.NextWithContext result w1 = ((result1, nextErr), w2) ∧
      Inv w2)
    (hmore : az.AppServicePlanCollectionPage.NotDone result1 = true)
    (fuel : Nat) (w : W) (hw : Inv w) :
    (listAppServicePlansLoop az webClient err fuel w).completion = Completion.unfinished ∧
      streamed (listAppServicePlansLoop az webClient err fuel w).events =
        (List.replicate fuel (az.AppServicePlanCollectionPage.Values result)).flatten := by
  induction fuel generalizing w with
  | zero => simp [listAppServicePlansLoop, streamed]
  | succ fuel ih =>
    obtain ⟨w1, w2, nextErr, hlist, hnext, hw2⟩ := hstep w hw
    have h := ih w2 hw2
    simp [listAppServicePlansLoop, hlist, hnext, hmore, streamServicePlans_eq, Run.after,
      streamed_append, streamed, streamed_map_stream, h, List.replicate_succ]

/-- The scenario's two pages of plans: the loop is still running after four iterations. -/
theorem restarting_plan_loop_never_ends_witness :
    (listAppServicePlansLoop twoPageScript.provider (plansClientOf session0) none 4
        0).completion = Completion.unfinished :=
  (restarting_plan_loop_never_ends twoPageScript.provider (plansClientOf session0) none
    (fun _ => True)
    [[servicePlan "p1", servicePlan "p2"], [servicePlan "p3"]] [[servicePlan "p3"]]
    (fun w _ => ⟨w + 1, w + 2, none, rfl, rfl, trivial⟩) rfl 4 0 trivial).1

end Azure
